import Mathlib

/-!
Verification of the Lakeshore 625 power-supply controller
(`lakeshore625/power_controller.py`, `lakeshore625/main.py`, `logging.py`).

The Python code is shallowly embedded:

* Machine floats are modelled by `PyFloat`, a pair of an integer mantissa
  and a power-of-ten exponent.  Every IEEE double is a dyadic rational and
  hence has an exact finite decimal expansion, so `PyFloat` represents
  every Python float exactly; comparisons are value comparisons (proved
  equivalent to `ℚ` comparisons below), and `str` formatting on a float
  whose shortest round-trip decimal is its exact value (true of all
  decimal literals and decimal response texts handled by this program)
  is the shortest-decimal printer `fmtPyFloat`.
* Python's `str.strip`, `str.split(',')`, `str.replace` and
  `int`/`float` conversions are modelled by structurally recursive
  functions over character lists.
* The serial transport is modelled by an explicit per-exchange behaviour
  (a read line, an empty/timed-out read, or an exception raised before or
  after the write); each controller operation returns the list of byte
  strings it wrote together with its result, and raising `ValueError` is
  modelled by an `Except.error` carrying the message.
-/

/-! ## Decimal digit helpers (model of Python `str` on `int` values) -/

/-- Numeric value of a digit-character list read most-significant first. -/
def digitsVal (ds : List Char) : Nat :=
  List.foldl (fun a c => a * 10 + (c.toNat - 48)) 0 ds

/-- Digit characters of `n`, most significant first; `[]` for `0`.
The first argument is structural fuel, sufficient whenever `fuel ≥ n`. -/
def natDigitsAux : Nat → Nat → List Char
  | 0, _ => []
  | fuel + 1, n =>
    if n = 0 then [] else natDigitsAux fuel (n / 10) ++ [Nat.digitChar (n % 10)]

/-- Decimal rendering of a natural number, as Python `str` produces it. -/
def natToStr (n : Nat) : String :=
  if n = 0 then "0" else String.mk (natDigitsAux n n)

/-! ## Structural models of the Python string methods used by the code -/

/-- The whitespace characters recognised by Python `str.strip()`. -/
def isPySpace (c : Char) : Bool :=
  c = ' ' ∨ c = '\t' ∨ c = '\n' ∨ c = '\r' ∨ c = '\x0b' ∨ c = '\x0c'

/-- Model of Python `str.strip()`. -/
def pyStrip (s : String) : String :=
  String.mk (((s.data.dropWhile isPySpace).reverse.dropWhile isPySpace).reverse)

/-- Helper for `pySplitComma`: splits a character list at commas. -/
def splitCommaAux : List Char → List Char → List String
  | [], acc => [String.mk acc.reverse]
  | c :: rest, acc =>
    if c = ',' then String.mk acc.reverse :: splitCommaAux rest []
    else splitCommaAux rest (c :: acc)

/-- Model of Python `str.split(',')`. -/
def pySplitComma (s : String) : List String :=
  splitCommaAux s.data []

/-- If `pat` is an initial segment of the list, return the remainder. -/
def dropMatch : List Char → List Char → Option (List Char)
  | [], cs => some cs
  | _ :: _, [] => none
  | p :: ps, c :: cs => if p = c then dropMatch ps cs else none

/-- Helper for `pyReplace`: leftmost non-overlapping replacement, with
structural fuel (one unit per character of the subject suffices). -/
def replaceAux (pat repl : List Char) : Nat → List Char → List Char
  | 0, cs => cs
  | _ + 1, [] => []
  | fuel + 1, c :: cs =>
    match dropMatch pat (c :: cs) with
    | some rest => repl ++ replaceAux pat repl fuel rest
    | none => c :: replaceAux pat repl fuel cs

/-- Model of Python `str.replace(pat, repl)` (all occurrences, leftmost,
non-overlapping; only used with non-empty `pat`). -/
def pyReplace (s pat repl : String) : String :=
  String.mk (replaceAux pat.data repl.data s.data.length s.data)

/-- Model of `"\n".join(...)`. -/
def joinNL : List String → String
  | [] => ""
  | [s] => s
  | s :: rest => s ++ "\n" ++ joinNL rest

/-- Model of `bytes.decode('ascii', errors='ignore')`: non-ASCII bytes
are discarded rather than raising. -/
def asciiIgnore (s : String) : String :=
  String.mk (s.data.filter (fun c => c.toNat ≤ 127))

/-! ## Exact decimal model of Python floats -/

/-- An exact decimal number `m / 10 ^ e`.  Every Python float is a dyadic
rational and hence exactly representable. -/
structure PyFloat where
  m : Int
  e : Nat
deriving DecidableEq

/-- Exact rational value of a `PyFloat`. -/
def PyFloat.toRat (x : PyFloat) : ℚ :=
  (x.m : ℚ) / (10 : ℚ) ^ x.e

/-- Value comparison of two `PyFloat`s, by cross-multiplication; this is
the model of Python `<=` on floats. -/
def PyFloat.le (a b : PyFloat) : Prop :=
  a.m * 10 ^ b.e ≤ b.m * 10 ^ a.e

instance (a b : PyFloat) : Decidable (PyFloat.le a b) :=
  inferInstanceAs (Decidable (_ ≤ _))

/-- Strip factors of ten from the fractional part (fuel-driven; fuel `e`
suffices).  This computes the shortest exact decimal form. -/
def stripTens : Nat → Int → Nat → Int × Nat
  | 0, m, e => (m, e)
  | fuel + 1, m, e =>
    match e with
    | 0 => (m, 0)
    | Nat.succ e' => if m % 10 = 0 then stripTens fuel (m / 10) e' else (m, Nat.succ e')

/-- Left-pad a digit list with `'0'` to width `w`. -/
def padZerosTo (w : Nat) (cs : List Char) : List Char :=
  List.replicate (w - cs.length) '0' ++ cs

/-- Model of Python `str`/f-string formatting of a float: the shortest
decimal digit string of the exact value, with at least one fractional
digit (`str(12.5) = "12.5"`, `str(1000000.0) = "1000000.0"`). -/
def fmtPyFloat (x : PyFloat) : String :=
  let p := stripTens x.e x.m x.e
  let sign := if p.1 < 0 then "-" else ""
  let n := p.1.natAbs
  let ip := n / 10 ^ p.2
  let fr := n % 10 ^ p.2
  sign ++ natToStr ip ++ "." ++
    (if p.2 = 0 then "0" else String.mk (padZerosTo p.2 (natDigitsAux fr fr)))

/-- Model of Python `float(s)`: optional surrounding whitespace and sign,
decimal mantissa with at least one digit, optional fractional part,
optional exponent; `none` where Python raises `ValueError`. -/
def pyFloatOfString (s : String) : Option PyFloat :=
  let cs := (pyStrip s).data
  let signed : Int × List Char :=
    match cs with
    | '+' :: rest => (1, rest)
    | '-' :: rest => (-1, rest)
    | _ => (1, cs)
  let sgn := signed.1
  let cs1 := signed.2
  let intDs := cs1.takeWhile Char.isDigit
  let cs2 := cs1.dropWhile Char.isDigit
  let fracSplit : List Char × List Char :=
    match cs2 with
    | '.' :: rest => (rest.takeWhile Char.isDigit, rest.dropWhile Char.isDigit)
    | _ => ([], cs2)
  let fracDs := fracSplit.1
  let cs3 := fracSplit.2
  if intDs.isEmpty ∧ fracDs.isEmpty then none
  else
    let m0 : Int := sgn * (digitsVal (intDs ++ fracDs) : Int)
    let e0 : Nat := fracDs.length
    match cs3 with
    | [] => some ⟨m0, e0⟩
    | c :: rest =>
      if c = 'e' ∨ c = 'E' then
        let esigned : Bool × List Char :=
          match rest with
          | '+' :: r => (false, r)
          | '-' :: r => (true, r)
          | _ => (false, rest)
        let eDs := esigned.2.takeWhile Char.isDigit
        let rest2 := esigned.2.dropWhile Char.isDigit
        if eDs.isEmpty ∨ ¬ rest2.isEmpty then none
        else
          let k := digitsVal eDs
          if esigned.1 then some ⟨m0, e0 + k⟩
          else some ⟨m0 * 10 ^ k, e0⟩
      else none

/-- Model of Python `int(s)`: optional surrounding whitespace, optional
sign, decimal digits only. -/
def pyIntOfString (s : String) : Option Int :=
  let cs := (pyStrip s).data
  let signed : Int × List Char :=
    match cs with
    | '+' :: rest => (1, rest)
    | '-' :: rest => (-1, rest)
    | _ => (1, cs)
  if signed.2 ≠ [] ∧ signed.2.all Char.isDigit then
    some (signed.1 * (digitsVal signed.2 : Int))
  else none

/-! ## Transport model

One request/response exchange of `PowerController.send_command`.  The body
of `send_command` clears the input buffer, writes the command terminated
with CR+LF, sleeps 0.2 s, and reads one line; any of those steps can
raise.  A behaviour records what the transport did during one exchange. -/

inductive ExchangeBehavior where
  /-- All steps succeeded and `readline` returned this text (before strip);
  the empty string here is a successfully read empty-string reply. -/
  | ok (line : String)
  /-- All steps succeeded but the read timed out: `readline` gave `b""`. -/
  | emptyRead
  /-- An exception was raised before the write (e.g. `reset_input_buffer`). -/
  | raiseBeforeWrite
  /-- The write succeeded, then the read raised an I/O exception. -/
  | raiseAfterWrite
deriving DecidableEq

/-- The `try` body of `send_command`: the lines written to the serial
port, and either the decoded stripped response or the raised exception. -/
def send_command_attempt (command : String) (b : ExchangeBehavior) :
    List String × Except Unit String :=
  match b with
  | ExchangeBehavior.ok line => ([command ++ "\r\n"], Except.ok (pyStrip (asciiIgnore line)))
  | ExchangeBehavior.emptyRead => ([command ++ "\r\n"], Except.ok "")
  | ExchangeBehavior.raiseBeforeWrite => ([], Except.error ())
  | ExchangeBehavior.raiseAfterWrite => ([command ++ "\r\n"], Except.error ())

/-- `PowerController.send_command`: the `except Exception` handler turns
any raised exception into the return value `None`. -/
def send_command (command : String) (b : ExchangeBehavior) :
    List String × Option String :=
  let r := send_command_attempt command b
  (r.1, r.2.toOption)

/-! ## Protocol client: query operations -/

/-- The query pattern
`if response is None or response == "": return "NO_RESPONSE"`. -/
def wrap_response (resp : Option String) : String :=
  match resp with
  | none => "NO_RESPONSE"
  | some s => if s = "" then "NO_RESPONSE" else s

def get_quench_detect (b : ExchangeBehavior) : List String × String :=
  let r := send_command "QNCH?" b
  (r.1, wrap_response r.2)

def get_ramp_rate (b : ExchangeBehavior) : List String × String :=
  let r := send_command "RATE?" b
  (r.1, wrap_response r.2)

def get_field (b : ExchangeBehavior) : List String × String :=
  let r := send_command "RDGF?" b
  (r.1, wrap_response r.2)

def get_voltage (b : ExchangeBehavior) : List String × String :=
  let r := send_command "RDGV?" b
  (r.1, wrap_response r.2)

def get_current (b : ExchangeBehavior) : List String × String :=
  let r := send_command "RDGI?" b
  (r.1, wrap_response r.2)

def get_limits (b : ExchangeBehavior) : List String × String :=
  let r := send_command "LIMIT?" b
  (r.1, wrap_response r.2)

def get_compliance_voltage (b : ExchangeBehavior) : List String × String :=
  let r := send_command "SETV?" b
  (r.1, wrap_response r.2)

def get_identification (b : ExchangeBehavior) : List String × String :=
  let r := send_command "*IDN?" b
  (r.1, wrap_response r.2)

def get_baud_rate (b : ExchangeBehavior) : List String × String :=
  let r := send_command "BAUD?" b
  (r.1, wrap_response r.2)

/-! ## Error status decoding (`get_error_status`) -/

def hardware_lines (hv : Int) : List String :=
  if hv = 0 then ["  Hardware Errors: None"]
  else
    ["  Hardware Errors: " ++ toString hv]
    ++ (if Int.land hv 32 ≠ 0 then ["    - DAC Processor Not Responding"] else [])
    ++ (if Int.land hv 16 ≠ 0 then ["    - Output Control Failure"] else [])
    ++ (if Int.land hv 8 ≠ 0 then ["    - Output Over Voltage"] else [])
    ++ (if Int.land hv 4 ≠ 0 then ["    - Output Over Current"] else [])
    ++ (if Int.land hv 2 ≠ 0 then ["    - Low Line Voltage"] else [])
    ++ (if Int.land hv 1 ≠ 0 then ["    - Temperature Fault"] else [])

def operational_lines (ov : Int) : List String :=
  if ov = 0 then ["  Operational Errors: None"]
  else
    ["  Operational Errors: " ++ toString ov]
    ++ (if Int.land ov 64 ≠ 0 then ["    - Magnet Discharging Through Crowbar"] else [])
    ++ (if Int.land ov 32 ≠ 0 then ["    - Magnet Quench Detected"] else [])
    ++ (if Int.land ov 16 ≠ 0 then ["    - Remote Inhibit Detected"] else [])
    ++ (if Int.land ov 8 ≠ 0 then ["    - Temperature High"] else [])
    ++ (if Int.land ov 4 ≠ 0 then ["    - High Line Voltage"] else [])
    ++ (if Int.land ov 2 ≠ 0 then ["    - External Current Program Error"] else [])
    ++ (if Int.land ov 1 ≠ 0 then ["    - Calibration Error"] else [])

def psh_lines (pv : Int) : List String :=
  if pv = 0 then ["  PSH Errors: None"]
  else
    ["  PSH Errors: " ++ toString pv]
    ++ (if Int.land pv 2 ≠ 0 then ["    - PSH Short Circuit"] else [])
    ++ (if Int.land pv 1 ≠ 0 then ["    - PSH Open Circuit"] else [])

/-- The `try` block of `get_error_status` after the no-response check:
unpack into three comma fields, parse each as an int, and render; a
`ValueError` from unpacking or `int()` falls through to the raw-text
fallback. -/
def parse_error_response (response : String) : String :=
  match pySplitComma response with
  | [h, o, p] =>
    match pyIntOfString h, pyIntOfString o, pyIntOfString p with
    | some hv, some ov, some pv =>
      joinNL (["Error Status Register:"] ++ hardware_lines hv
        ++ operational_lines ov ++ psh_lines pv)
    | _, _, _ => "Raw error status: " ++ response
  | _ => "Raw error status: " ++ response

def get_error_status (b : ExchangeBehavior) : List String × String :=
  let r := send_command "ERSTR?" b
  (r.1, match r.2 with
    | none => "NO_RESPONSE"
    | some s => if s = "" then "NO_RESPONSE" else parse_error_response s)

/-! ## Protocol client: mutating operations -/

/-- Result of a mutating operation: the byte strings written, and either
the `ValueError` message raised by validation or the returned value. -/
structure OpResult where
  writes : List String
  result : Except String (Option String)

/-- Run one command and package the raw response as a successful result. -/
def runSend (command : String) (b : ExchangeBehavior) : OpResult :=
  let r := send_command command b
  ⟨r.1, Except.ok r.2⟩

def set_quench_detect (enable : Bool) (b : ExchangeBehavior) : OpResult :=
  runSend ("QNCH " ++ (if enable then "1" else "0")) b

def set_quench_step_limit (step_limit : PyFloat) (b : ExchangeBehavior) : OpResult :=
  runSend ("QNCH 1," ++ fmtPyFloat step_limit) b

def set_ramp_rate (rate : PyFloat) (b : ExchangeBehavior) : OpResult :=
  runSend ("RATE " ++ fmtPyFloat rate) b

def set_current (current : PyFloat) (b : ExchangeBehavior) : OpResult :=
  runSend ("SETI " ++ fmtPyFloat current) b

def compliance_error_msg (voltage : PyFloat) : String :=
  "Compliance voltage must be between 0.1 and 5.0 V, got " ++ fmtPyFloat voltage

/-- `0.1 <= voltage <= 5.0` with the code's literals `0.1` and `5.0`. -/
def compliance_ok (voltage : PyFloat) : Prop :=
  PyFloat.le ⟨1, 1⟩ voltage ∧ PyFloat.le voltage ⟨50, 1⟩

instance (voltage : PyFloat) : Decidable (compliance_ok voltage) :=
  inferInstanceAs (Decidable (_ ∧ _))

def set_compliance_voltage (voltage : PyFloat) (b : ExchangeBehavior) : OpResult :=
  if ¬ compliance_ok voltage then
    ⟨[], Except.error (compliance_error_msg voltage)⟩
  else
    runSend ("SETV " ++ fmtPyFloat voltage) b

def current_limit_error_msg (current_limit : PyFloat) : String :=
  "Current limit must be between 0 and 60.1000 A, got " ++ fmtPyFloat current_limit

def voltage_limit_error_msg (voltage_limit : PyFloat) : String :=
  "Voltage limit must be between 0.1000 and 5.0000 V, got " ++ fmtPyFloat voltage_limit

def rate_limit_error_msg (rate_limit : PyFloat) : String :=
  "Rate limit must be between 0.0001 and 99.999 A/s, got " ++ fmtPyFloat rate_limit

/-- `0 <= current_limit <= 60.1000` with the code's literals. -/
def current_limit_ok (current_limit : PyFloat) : Prop :=
  PyFloat.le ⟨0, 0⟩ current_limit ∧ PyFloat.le current_limit ⟨601000, 4⟩

/-- `0.1000 <= voltage_limit <= 5.0000` with the code's literals. -/
def voltage_limit_ok (voltage_limit : PyFloat) : Prop :=
  PyFloat.le ⟨1000, 4⟩ voltage_limit ∧ PyFloat.le voltage_limit ⟨50000, 4⟩

/-- `0.0001 <= rate_limit <= 99.999` with the code's literals. -/
def rate_limit_ok (rate_limit : PyFloat) : Prop :=
  PyFloat.le ⟨1, 4⟩ rate_limit ∧ PyFloat.le rate_limit ⟨99999, 3⟩

instance (x : PyFloat) : Decidable (current_limit_ok x) :=
  inferInstanceAs (Decidable (_ ∧ _))

instance (x : PyFloat) : Decidable (voltage_limit_ok x) :=
  inferInstanceAs (Decidable (_ ∧ _))

instance (x : PyFloat) : Decidable (rate_limit_ok x) :=
  inferInstanceAs (Decidable (_ ∧ _))

def set_limits (current_limit voltage_limit rate_limit : PyFloat)
    (b : ExchangeBehavior) : OpResult :=
  if ¬ current_limit_ok current_limit then
    ⟨[], Except.error (current_limit_error_msg current_limit)⟩
  else if ¬ voltage_limit_ok voltage_limit then
    ⟨[], Except.error (voltage_limit_error_msg voltage_limit)⟩
  else if ¬ rate_limit_ok rate_limit then
    ⟨[], Except.error (rate_limit_error_msg rate_limit)⟩
  else
    runSend ("LIMIT " ++ fmtPyFloat current_limit ++ ", " ++ fmtPyFloat voltage_limit
      ++ ", " ++ fmtPyFloat rate_limit) b

def start_ramp (b : ExchangeBehavior) : OpResult :=
  runSend "RAMP" b

def stop_ramp (b : ExchangeBehavior) : OpResult :=
  runSend "STOP" b

/-! ## CLI quench-status decode (`main.py`, `--quench-status` branch)

The branch prints the raw response first, and only when the response is
truthy, not the no-response marker, and has at least two comma fields
does it decode: field 0 selects the ON/OFF line, field 1 is echoed as
the step limit; a parse exception would leave just the raw line
(`except: pass`). -/

def quench_status_lines (quench : String) : List String :=
  ["Quench detection: " ++ quench] ++
    (if quench ≠ "" ∧ quench ≠ "NO_RESPONSE" then
      let parts := pySplitComma quench
      if parts.length ≥ 2 then
        let status := pyStrip (parts.getD 0 "")
        let step_limit := pyStrip (parts.getD 1 "")
        (if status = "1" then ["Quench Detection: ON"]
         else if status = "0" then ["Quench Detection: OFF"]
         else [])
        ++ ["Step Limit: " ++ step_limit ++ " A/s"]
      else []
    else [])

/-- The full `--quench-status` handler: query, then decode. -/
def quench_status_output (b : ExchangeBehavior) : List String :=
  quench_status_lines (get_quench_detect b).2

/-! ## Polling logger (`logging.py`, `RampLogger`) -/

/-- One assembled log record: `get_ramp_data`'s dictionary.  Timestamp,
date and time strings and the elapsed seconds are taken at the start of
the iteration; each of the four readings is independently either a
decoded float or absent. -/
structure LogRecord where
  timestamp : String
  date : String
  timeOfDay : String
  elapsed : PyFloat
  ramp_rate : Option PyFloat
  currentA : Option PyFloat
  voltageV : Option PyFloat
  fieldT : Option PyFloat
deriving DecidableEq

/-- Decode of a rate/current/voltage reading:
`float(s.replace('+', '')) if s != "NO_RESPONSE" else None`, with the
surrounding `try/except` mapping a parse failure to `None`. -/
def decode_reading (s : String) : Option PyFloat :=
  if s = "NO_RESPONSE" then none else pyFloatOfString (pyReplace s "+" "")

/-- Decode of the field reading: additionally strips `'E+00'` — a no-op
after every `'+'` has already been removed, exactly as in the source. -/
def decode_field_reading (s : String) : Option PyFloat :=
  if s = "NO_RESPONSE" then none
  else pyFloatOfString (pyReplace (pyReplace s "+" "") "E+00" "")

/-- `RampLogger.get_ramp_data`: the four queries in source order, each
decoded independently.  The outer `try` of the source cannot fire: every
fallible step is already guarded by an inner `try/except`. -/
def get_ramp_data (timestamp date timeOfDay : String) (elapsed : PyFloat)
    (b1 b2 b3 b4 : ExchangeBehavior) : LogRecord :=
  { timestamp := timestamp
    date := date
    timeOfDay := timeOfDay
    elapsed := elapsed
    ramp_rate := decode_reading (get_ramp_rate b1).2
    currentA := decode_reading (get_current b2).2
    voltageV := decode_reading (get_voltage b3).2
    fieldT := decode_field_reading (get_field b4).2 }

/-- Fixed-point rendering with `prec` decimals of an exact decimal value,
the model of `f"{x:.{prec}f}"` on the floats this logger prints (their
exact decimal expansions never exceed the printed precision on real
device responses; ties round half away from zero). -/
def fmtFixed (prec : Nat) (x : PyFloat) : String :=
  let num := x.m * 10 ^ prec * 2 + 10 ^ x.e
  let den := 10 ^ x.e * 2
  let scaled : Int := num / den
  let sign := if scaled < 0 then "-" else ""
  let n := scaled.natAbs
  sign ++ natToStr (n / 10 ^ prec) ++
    (if prec = 0 then "" else "." ++ String.mk (padZerosTo prec (natDigitsAux (n % 10 ^ prec) (n % 10 ^ prec))))

/-- `str(None)`, or the 4-decimal float format of a reading. -/
def reading_cell (v : Option PyFloat) : String :=
  match v with
  | none => "None"
  | some q => fmtFixed 4 q

/-- Left-justified space padding to `w`, the model of `f"{v:<{w}}"`. -/
def padCell (w : Nat) (s : String) : String :=
  s ++ String.mk (List.replicate (w - s.data.length) ' ')

/-- `RampLogger.append_to_formatted_csv` on one csv row (column widths
`[28, 12, 12, 16, 18, 14, 14, 14]`, last column unpadded; elapsed with
one decimal, the four readings with four decimals). -/
def format_row_line (r : LogRecord) : String :=
  padCell 28 r.timestamp ++ padCell 12 r.date ++ padCell 12 r.timeOfDay
    ++ padCell 16 (fmtFixed 1 r.elapsed)
    ++ padCell 18 (reading_cell r.ramp_rate)
    ++ padCell 14 (reading_cell r.currentA)
    ++ padCell 14 (reading_cell r.voltageV)
    ++ reading_cell r.fieldT

/-- One iteration of `RampLogger.run`'s loop body acting on the log file
(modelled as its list of lines): get the readings, format the row, and
append it to the file — all before the 60-second sleep that ends the
iteration. -/
def logger_iteration (file : List String) (timestamp date timeOfDay : String)
    (elapsed : PyFloat) (b1 b2 b3 b4 : ExchangeBehavior) : List String :=
  file ++ [format_row_line (get_ramp_data timestamp date timeOfDay elapsed b1 b2 b3 b4)]

/-! ## Log file naming (`RampLogger._get_next_csv_filename`)

The filesystem is modelled by the list of paths that exist. -/

def base_filename (start_date : String) : String :=
  "ramps/" ++ start_date ++ "_ramp_log.csv"

def numbered_filename (start_date : String) (counter : Nat) : String :=
  "ramps/" ++ start_date ++ "_ramp_log_" ++ natToStr counter ++ ".csv"

/-- The `while True` counter search, fuel-driven; `existing.length + 1`
units of fuel always suffice (shown below). -/
def findCounter (start_date : String) (existing : List String) : Nat → Nat → Nat
  | 0, counter => counter
  | fuel + 1, counter =>
    if numbered_filename start_date counter ∈ existing then
      findCounter start_date existing fuel (counter + 1)
    else counter

def get_next_csv_filename (start_date : String) (existing : List String) : String :=
  if base_filename start_date ∈ existing then
    numbered_filename start_date
      (findCounter start_date existing (existing.length + 1) 1)
  else base_filename start_date

/-- Recover the counter from a numbered filename: reverse, drop the four
characters of `".csv"`, take the digit run, reverse it back and read it. -/
def extractCounter (s : String) : Nat :=
  digitsVal ((s.data.reverse.drop 4).takeWhile Char.isDigit).reverse

/-! ## Supporting lemmas -/

theorem digitsVal_append_singleton (ds : List Char) (c : Char) :
    digitsVal (ds ++ [c]) = digitsVal ds * 10 + (c.toNat - 48) := by
  simp [digitsVal, List.foldl_append]

theorem digitChar_val : ∀ d : Nat, d < 10 → (Nat.digitChar d).toNat - 48 = d := by
  decide

theorem digitsVal_natDigitsAux :
    ∀ fuel n : Nat, n ≤ fuel → digitsVal (natDigitsAux fuel n) = n := by
  intro fuel
  induction fuel with
  | zero =>
    intro n hn
    interval_cases n
    simp [natDigitsAux, digitsVal]
  | succ f ih =>
    intro n hn
    by_cases h0 : n = 0
    · simp [natDigitsAux, h0, digitsVal]
    · have hdiv : n / 10 ≤ f := by
        have h1 : n / 10 < n := Nat.div_lt_self (Nat.pos_of_ne_zero h0) (by norm_num)
        omega
      rw [natDigitsAux, if_neg h0, digitsVal_append_singleton, ih _ hdiv,
        digitChar_val _ (Nat.mod_lt _ (by norm_num))]
      omega

theorem digitsVal_natToStr (n : Nat) : digitsVal (natToStr n).data = n := by
  by_cases h0 : n = 0
  · simp [natToStr, h0, digitsVal]
  · simp [natToStr, h0]
    exact digitsVal_natDigitsAux n n le_rfl

theorem natToStr_injective : Function.Injective natToStr := by
  intro m n h
  have := digitsVal_natToStr m
  rw [h, digitsVal_natToStr] at this
  omega

theorem PyFloat.le_iff_toRat (a b : PyFloat) : PyFloat.le a b ↔ a.toRat ≤ b.toRat := by
  unfold PyFloat.le PyFloat.toRat
  rw [div_le_div_iff₀ (by positivity) (by positivity)]
  constructor
  · intro h
    exact_mod_cast h
  · intro h
    exact_mod_cast h

theorem sendWrites_crlf (command : String) (b : ExchangeBehavior) (w : String)
    (hw : w ∈ (send_command command b).1) : ∃ s, w = s ++ "\r\n" := by
  cases b <;> simp [send_command, send_command_attempt] at hw <;> exact ⟨command, hw⟩

theorem wrap_response_no_response (r : Option String)
    (h : r = none ∨ r = some "") : wrap_response r = "NO_RESPONSE" := by
  rcases h with h | h <;> simp [wrap_response, h]

theorem wrap_response_reply (r : Option String) (s : String)
    (h : r = some s) (hs : s ≠ "") : wrap_response r = s := by
  simp [wrap_response, h, hs]

theorem compliance_ok_iff (v : PyFloat) :
    compliance_ok v ↔ (0.1 ≤ v.toRat ∧ v.toRat ≤ 5) := by
  unfold compliance_ok
  rw [PyFloat.le_iff_toRat, PyFloat.le_iff_toRat]
  have h1 : (⟨1, 1⟩ : PyFloat).toRat = 0.1 := by norm_num [PyFloat.toRat]
  have h2 : (⟨50, 1⟩ : PyFloat).toRat = 5 := by norm_num [PyFloat.toRat]
  rw [h1, h2]

theorem current_limit_ok_iff (c : PyFloat) :
    current_limit_ok c ↔ (0 ≤ c.toRat ∧ c.toRat ≤ 60.1) := by
  unfold current_limit_ok
  rw [PyFloat.le_iff_toRat, PyFloat.le_iff_toRat]
  have h1 : (⟨0, 0⟩ : PyFloat).toRat = 0 := by norm_num [PyFloat.toRat]
  have h2 : (⟨601000, 4⟩ : PyFloat).toRat = 60.1 := by norm_num [PyFloat.toRat]
  rw [h1, h2]

theorem voltage_limit_ok_iff (v : PyFloat) :
    voltage_limit_ok v ↔ (0.1 ≤ v.toRat ∧ v.toRat ≤ 5) := by
  unfold voltage_limit_ok
  rw [PyFloat.le_iff_toRat, PyFloat.le_iff_toRat]
  have h1 : (⟨1000, 4⟩ : PyFloat).toRat = 0.1 := by norm_num [PyFloat.toRat]
  have h2 : (⟨50000, 4⟩ : PyFloat).toRat = 5 := by norm_num [PyFloat.toRat]
  rw [h1, h2]

theorem rate_limit_ok_iff (r : PyFloat) :
    rate_limit_ok r ↔ (0.0001 ≤ r.toRat ∧ r.toRat ≤ 99.999) := by
  unfold rate_limit_ok
  rw [PyFloat.le_iff_toRat, PyFloat.le_iff_toRat]
  have h1 : (⟨1, 4⟩ : PyFloat).toRat = 0.0001 := by norm_num [PyFloat.toRat]
  have h2 : (⟨99999, 3⟩ : PyFloat).toRat = 99.999 := by norm_num [PyFloat.toRat]
  rw [h1, h2]

theorem natDigitsAux_all_digits :
    ∀ fuel n : Nat, ∀ c ∈ natDigitsAux fuel n, c.isDigit := by
  intro fuel
  induction fuel with
  | zero => intro n c hc; simp [natDigitsAux] at hc
  | succ f ih =>
    intro n c hc
    by_cases h0 : n = 0
    · simp [natDigitsAux, h0] at hc
    · rw [natDigitsAux, if_neg h0] at hc
      rcases List.mem_append.mp hc with h | h
      · exact ih _ c h
      · have hd : ∀ d : Nat, d < 10 → (Nat.digitChar d).isDigit := by decide
        rw [List.mem_singleton] at h
        exact h ▸ hd _ (Nat.mod_lt _ (by norm_num))

theorem natToStr_all_digits (n : Nat) : ∀ c ∈ (natToStr n).data, c.isDigit := by
  intro c hc
  by_cases h0 : n = 0
  · simp [natToStr, h0] at hc
    simp [hc]
  · simp only [natToStr, if_neg h0] at hc
    exact natDigitsAux_all_digits n n c hc

theorem takeWhile_all_append (p : Char → Bool) :
    ∀ (A B : List Char) (x : Char), (∀ c ∈ A, p c) → p x = false →
      (A ++ x :: B).takeWhile p = A := by
  intro A
  induction A with
  | nil => intro B x _ hx; simp [List.takeWhile_cons, hx]
  | cons a A ih =>
    intro B x hA hx
    have ha : p a := hA a (by simp)
    simp [List.cons_append, List.takeWhile_cons, ha,
      ih B x (fun c hc => hA c (by simp [hc])) hx]

theorem extractCounter_numbered (d : String) (k : Nat) :
    extractCounter (numbered_filename d k) = k := by
  unfold extractCounter numbered_filename
  have h1 : ("ramps/" ++ d ++ "_ramp_log_" ++ natToStr k ++ ".csv").data
      = ((("ramps/".data ++ d.data) ++ "_ramp_log_".data) ++ (natToStr k).data)
        ++ ".csv".data := by
    simp [String.data_append]
  rw [h1, List.reverse_append]
  have h2 : (".csv".data.reverse
      ++ ((("ramps/".data ++ d.data) ++ "_ramp_log_".data) ++ (natToStr k).data).reverse).drop 4
      = ((("ramps/".data ++ d.data) ++ "_ramp_log_".data) ++ (natToStr k).data).reverse := rfl
  rw [h2, List.reverse_append, List.reverse_append]
  have h3 : "_ramp_log_".data.reverse
      = '_' :: ['g', 'o', 'l', '_', 'p', 'm', 'a', 'r', '_'] := rfl
  rw [h3]
  rw [List.cons_append]
  rw [takeWhile_all_append Char.isDigit _ _ '_'
    (fun c hc => natToStr_all_digits k c (List.mem_reverse.mp hc)) (by decide)]
  rw [List.reverse_reverse]
  exact digitsVal_natToStr k

theorem numbered_filename_injective (d : String) :
    Function.Injective (numbered_filename d) := by
  intro i j h
  have hi := extractCounter_numbered d i
  rw [h, extractCounter_numbered] at hi
  omega

theorem exists_free_counter (d : String) (existing : List String) :
    ∃ j, 1 ≤ j ∧ j < existing.length + 2 ∧ numbered_filename d j ∉ existing := by
  by_contra hcon
  push_neg at hcon
  have hsub : ∀ x ∈ (List.range' 1 (existing.length + 1)).map (numbered_filename d),
      x ∈ existing := by
    intro x hx
    rw [List.mem_map] at hx
    obtain ⟨j, hj, rfl⟩ := hx
    rw [List.mem_range'_1] at hj
    exact hcon j hj.1 (by omega)
  have hnodup : ((List.range' 1 (existing.length + 1)).map (numbered_filename d)).Nodup :=
    List.Nodup.map (numbered_filename_injective d) (List.nodup_range' 1 (existing.length + 1))
  have hcard : ((List.range' 1 (existing.length + 1)).map (numbered_filename d)).toFinset.card
      = existing.length + 1 := by
    rw [List.toFinset_card_of_nodup hnodup]
    simp
  have hsubF : ((List.range' 1 (existing.length + 1)).map (numbered_filename d)).toFinset
      ⊆ existing.toFinset := by
    intro x hx
    rw [List.mem_toFinset] at hx ⊢
    exact hsub x hx
  have := Finset.card_le_card hsubF
  have := List.toFinset_card_le existing
  omega

theorem findCounter_spec (d : String) (existing : List String) :
    ∀ fuel start,
      (∃ j, start ≤ j ∧ j < start + fuel ∧ numbered_filename d j ∉ existing) →
      numbered_filename d (findCounter d existing fuel start) ∉ existing ∧
      start ≤ findCounter d existing fuel start ∧
      ∀ j, start ≤ j → j < findCounter d existing fuel start →
        numbered_filename d j ∈ existing := by
  intro fuel
  induction fuel with
  | zero =>
    intro start hex
    exfalso
    obtain ⟨j, hj1, hj2, _⟩ := hex
    omega
  | succ f ih =>
    intro start hex
    by_cases hmem : numbered_filename d start ∈ existing
    · have hex' : ∃ j, start + 1 ≤ j ∧ j < start + 1 + f ∧
          numbered_filename d j ∉ existing := by
        obtain ⟨j, hj1, hj2, hj3⟩ := hex
        refine ⟨j, ?_, by omega, hj3⟩
        rcases Nat.eq_or_lt_of_le hj1 with heq | hlt
        · exact absurd hmem (heq ▸ hj3)
        · omega
      have hrec := ih (start + 1) hex'
      rw [findCounter, if_pos hmem]
      refine ⟨hrec.1, by omega, ?_⟩
      intro j hj1 hj2
      rcases Nat.eq_or_lt_of_le hj1 with heq | hlt
      · exact heq ▸ hmem
      · exact hrec.2.2 j (by omega) hj2
    · rw [findCounter, if_neg hmem]
      exact ⟨hmem, le_rfl, fun j h1 h2 => absurd h2 (Nat.not_lt.mpr h1)⟩

/-! ## Claim theorems -/

/-- Claim C1, counterexample: `set_current` performs no range validation
at all.  The target current 1000000 A — far outside the supply's 0–60.1 A
current range — is encoded and written to the transport, and the call
returns normally instead of raising a validation error.  This refutes
"every mutating operation validates its numeric argument's range before
any byte is written" for `setCurrent` (and likewise `setRampRate` and
`setQuenchStepLimit`, which have no validation either). -/
theorem C1_counterexample :
    (set_current ⟨1000000, 0⟩ ExchangeBehavior.emptyRead).writes
      = ["SETI 1000000.0\r\n"] ∧
    (set_current ⟨1000000, 0⟩ ExchangeBehavior.emptyRead).result
      = Except.ok (some "") ∧
    ¬ (0 ≤ (⟨1000000, 0⟩ : PyFloat).toRat ∧ (⟨1000000, 0⟩ : PyFloat).toRat ≤ 60.1) := by
  refine ⟨by decide, rfl, ?_⟩
  norm_num [PyFloat.toRat]

/-- Claim C1, amended: only `set_compliance_voltage` and `set_limits`
validate their numeric arguments, and they do so before any byte is
written — a failing argument raises `ValueError` (naming the offending
value) with zero writes to the transport.  The remaining mutating
operations `set_current`, `set_ramp_rate`, `set_quench_detect` and
`set_quench_step_limit` perform no validation: they never raise and
always hand their encoded command to the transport. -/
theorem C1_amended_validation :
    (∀ v b, ¬ (0.1 ≤ v.toRat ∧ v.toRat ≤ 5) →
      set_compliance_voltage v b = ⟨[], Except.error (compliance_error_msg v)⟩) ∧
    (∀ c v r b, ¬ ((0 ≤ c.toRat ∧ c.toRat ≤ 60.1) ∧ (0.1 ≤ v.toRat ∧ v.toRat ≤ 5)
        ∧ (0.0001 ≤ r.toRat ∧ r.toRat ≤ 99.999)) →
      (set_limits c v r b).writes = [] ∧
        ∃ msg, (set_limits c v r b).result = Except.error msg) ∧
    (∀ x b, (∃ resp, (set_current x b).result = Except.ok resp) ∧
      (b ≠ ExchangeBehavior.raiseBeforeWrite →
        (set_current x b).writes = [("SETI " ++ fmtPyFloat x) ++ "\r\n"])) ∧
    (∀ x b, (∃ resp, (set_ramp_rate x b).result = Except.ok resp) ∧
      (b ≠ ExchangeBehavior.raiseBeforeWrite →
        (set_ramp_rate x b).writes = [("RATE " ++ fmtPyFloat x) ++ "\r\n"])) ∧
    (∀ x b, (∃ resp, (set_quench_step_limit x b).result = Except.ok resp) ∧
      (b ≠ ExchangeBehavior.raiseBeforeWrite →
        (set_quench_step_limit x b).writes = [("QNCH 1," ++ fmtPyFloat x) ++ "\r\n"])) ∧
    (∀ en b, (∃ resp, (set_quench_detect en b).result = Except.ok resp) ∧
      (b ≠ ExchangeBehavior.raiseBeforeWrite →
        (set_quench_detect en b).writes
          = [("QNCH " ++ (if en then "1" else "0")) ++ "\r\n"])) := by
  refine ⟨?_, ?_, ?_, ?_, ?_, ?_⟩
  · intro v b h
    have h' : ¬ compliance_ok v := fun hok => h ((compliance_ok_iff v).mp hok)
    simp [set_compliance_voltage, h']
  · intro c v r b h
    by_cases hc : current_limit_ok c
    · by_cases hv : voltage_limit_ok v
      · have hr : ¬ rate_limit_ok r := fun hr => h ⟨(current_limit_ok_iff c).mp hc,
          (voltage_limit_ok_iff v).mp hv, (rate_limit_ok_iff r).mp hr⟩
        simp [set_limits, hc, hv, hr]
      · simp [set_limits, hc, hv]
    · simp [set_limits, hc]
  · intro x b
    refine ⟨⟨(send_command ("SETI " ++ fmtPyFloat x) b).2, rfl⟩, ?_⟩
    intro hb
    cases b <;> first | rfl | exact absurd rfl hb
  · intro x b
    refine ⟨⟨(send_command ("RATE " ++ fmtPyFloat x) b).2, rfl⟩, ?_⟩
    intro hb
    cases b <;> first | rfl | exact absurd rfl hb
  · intro x b
    refine ⟨⟨(send_command ("QNCH 1," ++ fmtPyFloat x) b).2, rfl⟩, ?_⟩
    intro hb
    cases b <;> first | rfl | exact absurd rfl hb
  · intro en b
    refine ⟨⟨(send_command ("QNCH " ++ (if en then "1" else "0")) b).2, rfl⟩, ?_⟩
    intro hb
    cases b <;> first | rfl | exact absurd rfl hb

/-- Claim C1 witness: concrete instances of `C1_amended_validation` — the
out-of-range compliance voltage 6.0 V is rejected with no write, the
out-of-range current limit 70 A makes `set_limits` raise with no write,
and `set_current 12.5` always transmits its command. -/
theorem C1_amended_validation_witness :
    set_compliance_voltage ⟨60, 1⟩ ExchangeBehavior.emptyRead
      = ⟨[], Except.error (compliance_error_msg ⟨60, 1⟩)⟩ ∧
    ((set_limits ⟨700, 1⟩ ⟨25, 1⟩ ⟨1, 2⟩ ExchangeBehavior.emptyRead).writes = [] ∧
      ∃ msg, (set_limits ⟨700, 1⟩ ⟨25, 1⟩ ⟨1, 2⟩ ExchangeBehavior.emptyRead).result
        = Except.error msg) ∧
    (set_current ⟨125, 1⟩ ExchangeBehavior.emptyRead).writes
      = [("SETI " ++ fmtPyFloat ⟨125, 1⟩) ++ "\r\n"] :=
  ⟨C1_amended_validation.1 ⟨60, 1⟩ ExchangeBehavior.emptyRead
      (by norm_num [PyFloat.toRat]),
    C1_amended_validation.2.1 ⟨700, 1⟩ ⟨25, 1⟩ ⟨1, 2⟩ ExchangeBehavior.emptyRead
      (by norm_num [PyFloat.toRat]),
    (C1_amended_validation.2.2.1 ⟨125, 1⟩ ExchangeBehavior.emptyRead).2 (by simp)⟩

/-- Claim C2, counterexample: the three outcomes the claim requires to be
distinguishable — a successfully read empty-string reply, a timed-out
(empty) read, and a transport-level I/O error — all produce the identical
result `"NO_RESPONSE"` from `get_field`, so they are conflated, not
distinguishable. -/
theorem C2_counterexample :
    (get_field (ExchangeBehavior.ok "")).2 = "NO_RESPONSE" ∧
    (get_field ExchangeBehavior.emptyRead).2 = "NO_RESPONSE" ∧
    (get_field ExchangeBehavior.raiseAfterWrite).2 = "NO_RESPONSE" := by
  decide

/-- Claim C2, amended: every query operation returns the single marker
string `"NO_RESPONSE"` whenever the underlying exchange produced no reply
(`None` from a transport error) or an empty reply (timeout or genuinely
empty line), and returns the reply text itself (for `getErrorStatus`, its
parse) whenever the reply is non-empty.  The marker therefore
distinguishes "nothing usable came back" from every non-empty reply, but
the timed-out read, the empty-string reply and the transport error are
all conflated into the one marker. -/
theorem C2_amended_marker (b : ExchangeBehavior) :
    ((send_command "RDGF?" b).2 = none ∨ (send_command "RDGF?" b).2 = some "" →
      (get_field b).2 = "NO_RESPONSE") ∧
    (∀ s, (send_command "RDGF?" b).2 = some s → s ≠ "" → (get_field b).2 = s) ∧
    ((send_command "RDGI?" b).2 = none ∨ (send_command "RDGI?" b).2 = some "" →
      (get_current b).2 = "NO_RESPONSE") ∧
    (∀ s, (send_command "RDGI?" b).2 = some s → s ≠ "" → (get_current b).2 = s) ∧
    ((send_command "RDGV?" b).2 = none ∨ (send_command "RDGV?" b).2 = some "" →
      (get_voltage b).2 = "NO_RESPONSE") ∧
    (∀ s, (send_command "RDGV?" b).2 = some s → s ≠ "" → (get_voltage b).2 = s) ∧
    ((send_command "RATE?" b).2 = none ∨ (send_command "RATE?" b).2 = some "" →
      (get_ramp_rate b).2 = "NO_RESPONSE") ∧
    (∀ s, (send_command "RATE?" b).2 = some s → s ≠ "" → (get_ramp_rate b).2 = s) ∧
    ((send_command "LIMIT?" b).2 = none ∨ (send_command "LIMIT?" b).2 = some "" →
      (get_limits b).2 = "NO_RESPONSE") ∧
    (∀ s, (send_command "LIMIT?" b).2 = some s → s ≠ "" → (get_limits b).2 = s) ∧
    ((send_command "SETV?" b).2 = none ∨ (send_command "SETV?" b).2 = some "" →
      (get_compliance_voltage b).2 = "NO_RESPONSE") ∧
    (∀ s, (send_command "SETV?" b).2 = some s → s ≠ "" →
      (get_compliance_voltage b).2 = s) ∧
    ((send_command "*IDN?" b).2 = none ∨ (send_command "*IDN?" b).2 = some "" →
      (get_identification b).2 = "NO_RESPONSE") ∧
    (∀ s, (send_command "*IDN?" b).2 = some s → s ≠ "" →
      (get_identification b).2 = s) ∧
    ((send_command "BAUD?" b).2 = none ∨ (send_command "BAUD?" b).2 = some "" →
      (get_baud_rate b).2 = "NO_RESPONSE") ∧
    (∀ s, (send_command "BAUD?" b).2 = some s → s ≠ "" → (get_baud_rate b).2 = s) ∧
    ((send_command "QNCH?" b).2 = none ∨ (send_command "QNCH?" b).2 = some "" →
      (get_quench_detect b).2 = "NO_RESPONSE") ∧
    (∀ s, (send_command "QNCH?" b).2 = some s → s ≠ "" →
      (get_quench_detect b).2 = s) ∧
    ((send_command "ERSTR?" b).2 = none ∨ (send_command "ERSTR?" b).2 = some "" →
      (get_error_status b).2 = "NO_RESPONSE") ∧
    (∀ s, (send_command "ERSTR?" b).2 = some s → s ≠ "" →
      (get_error_status b).2 = parse_error_response s) := by
  refine ⟨wrap_response_no_response _, fun s hs hne => wrap_response_reply _ s hs hne,
    wrap_response_no_response _, fun s hs hne => wrap_response_reply _ s hs hne,
    wrap_response_no_response _, fun s hs hne => wrap_response_reply _ s hs hne,
    wrap_response_no_response _, fun s hs hne => wrap_response_reply _ s hs hne,
    wrap_response_no_response _, fun s hs hne => wrap_response_reply _ s hs hne,
    wrap_response_no_response _, fun s hs hne => wrap_response_reply _ s hs hne,
    wrap_response_no_response _, fun s hs hne => wrap_response_reply _ s hs hne,
    wrap_response_no_response _, fun s hs hne => wrap_response_reply _ s hs hne,
    wrap_response_no_response _, fun s hs hne => wrap_response_reply _ s hs hne,
    ?_, ?_⟩
  · intro h
    rcases h with h | h <;> simp [get_error_status, h]
  · intro s hs hne
    simp [get_error_status, hs, hne]

/-- Claim C2 witness: at the timed-out exchange the read is empty and
`get_field` returns the marker. -/
theorem C2_amended_marker_witness :
    (get_field ExchangeBehavior.emptyRead).2 = "NO_RESPONSE" :=
  (C2_amended_marker ExchangeBehavior.emptyRead).1 (Or.inr rfl)

/-- Claim C3: `set_limits` accepts and transmits exactly when
current ∈ [0, 60.1], voltage ∈ [0.1, 5.0] and rate ∈ [0.0001, 99.999]
hold simultaneously; when it rejects, the raised `ValueError` names the
first out-of-range field in the order current, voltage, rate, together
with the offending value (the message also spells out the legal range),
and nothing is written to the transport. -/
theorem C3_set_limits_spec (c v r : PyFloat) (b : ExchangeBehavior) :
    ((∃ resp, (set_limits c v r b).result = Except.ok resp) ↔
      ((0 ≤ c.toRat ∧ c.toRat ≤ 60.1) ∧ (0.1 ≤ v.toRat ∧ v.toRat ≤ 5)
        ∧ (0.0001 ≤ r.toRat ∧ r.toRat ≤ 99.999))) ∧
    (¬ (0 ≤ c.toRat ∧ c.toRat ≤ 60.1) →
      set_limits c v r b = ⟨[], Except.error (current_limit_error_msg c)⟩) ∧
    ((0 ≤ c.toRat ∧ c.toRat ≤ 60.1) → ¬ (0.1 ≤ v.toRat ∧ v.toRat ≤ 5) →
      set_limits c v r b = ⟨[], Except.error (voltage_limit_error_msg v)⟩) ∧
    ((0 ≤ c.toRat ∧ c.toRat ≤ 60.1) → (0.1 ≤ v.toRat ∧ v.toRat ≤ 5) →
      ¬ (0.0001 ≤ r.toRat ∧ r.toRat ≤ 99.999) →
      set_limits c v r b = ⟨[], Except.error (rate_limit_error_msg r)⟩) ∧
    (((0 ≤ c.toRat ∧ c.toRat ≤ 60.1) ∧ (0.1 ≤ v.toRat ∧ v.toRat ≤ 5)
        ∧ (0.0001 ≤ r.toRat ∧ r.toRat ≤ 99.999)) →
      set_limits c v r b = runSend ("LIMIT " ++ fmtPyFloat c ++ ", " ++ fmtPyFloat v
        ++ ", " ++ fmtPyFloat r) b) := by
  rw [← current_limit_ok_iff, ← voltage_limit_ok_iff, ← rate_limit_ok_iff]
  by_cases hc : current_limit_ok c <;> by_cases hv : voltage_limit_ok v <;>
    by_cases hr : rate_limit_ok r <;>
    simp [set_limits, runSend, hc, hv, hr]

/-- Claim C3 witness: the in-range triple (10, 2.5, 0.01) is accepted,
and the triple with current limit 70 A is rejected with the
current-limit message and no write. -/
theorem C3_set_limits_spec_witness :
    (∃ resp, (set_limits ⟨10, 0⟩ ⟨25, 1⟩ ⟨1, 2⟩ ExchangeBehavior.emptyRead).result
      = Except.ok resp) ∧
    set_limits ⟨700, 1⟩ ⟨25, 1⟩ ⟨1, 2⟩ ExchangeBehavior.emptyRead
      = ⟨[], Except.error (current_limit_error_msg ⟨700, 1⟩)⟩ :=
  ⟨(C3_set_limits_spec ⟨10, 0⟩ ⟨25, 1⟩ ⟨1, 2⟩ ExchangeBehavior.emptyRead).1.mpr
      (by norm_num [PyFloat.toRat]),
    (C3_set_limits_spec ⟨700, 1⟩ ⟨25, 1⟩ ⟨1, 2⟩ ExchangeBehavior.emptyRead).2.1
      (by norm_num [PyFloat.toRat])⟩

/-- Claim C4: `set_compliance_voltage` accepts and transmits exactly when
0.1 ≤ v ≤ 5.0; the boundary values 0.1 and 5.0 are accepted, and the
out-of-range values 0.0999 and 5.0001 are rejected with the validation
error (and no write). -/
theorem C4_compliance_spec (v : PyFloat) (b : ExchangeBehavior) :
    ((∃ resp, (set_compliance_voltage v b).result = Except.ok resp) ↔
      (0.1 ≤ v.toRat ∧ v.toRat ≤ 5)) ∧
    (¬ (0.1 ≤ v.toRat ∧ v.toRat ≤ 5) →
      set_compliance_voltage v b = ⟨[], Except.error (compliance_error_msg v)⟩) ∧
    ((0.1 ≤ v.toRat ∧ v.toRat ≤ 5) →
      set_compliance_voltage v b = runSend ("SETV " ++ fmtPyFloat v) b) ∧
    (∃ resp, (set_compliance_voltage ⟨1, 1⟩ b).result = Except.ok resp) ∧
    (∃ resp, (set_compliance_voltage ⟨50, 1⟩ b).result = Except.ok resp) ∧
    set_compliance_voltage ⟨999, 4⟩ b
      = ⟨[], Except.error (compliance_error_msg ⟨999, 4⟩)⟩ ∧
    set_compliance_voltage ⟨50001, 4⟩ b
      = ⟨[], Except.error (compliance_error_msg ⟨50001, 4⟩)⟩ := by
  rw [← compliance_ok_iff]
  have hlo : compliance_ok ⟨1, 1⟩ := by decide
  have hhi : compliance_ok ⟨50, 1⟩ := by decide
  have hbad1 : ¬ compliance_ok ⟨999, 4⟩ := by decide
  have hbad2 : ¬ compliance_ok ⟨50001, 4⟩ := by decide
  by_cases hv : compliance_ok v <;>
    simp [set_compliance_voltage, runSend, hv, hlo, hhi, hbad1, hbad2]

/-- Claim C4 witness: the boundary value 0.1 is accepted and 0.0999 is
rejected with the validation error. -/
theorem C4_compliance_spec_witness :
    (∃ resp, (set_compliance_voltage ⟨1, 1⟩ ExchangeBehavior.emptyRead).result
      = Except.ok resp) ∧
    set_compliance_voltage ⟨999, 4⟩ ExchangeBehavior.emptyRead
      = ⟨[], Except.error (compliance_error_msg ⟨999, 4⟩)⟩ :=
  ⟨(C4_compliance_spec ⟨1, 1⟩ ExchangeBehavior.emptyRead).1.mpr
      (by norm_num [PyFloat.toRat]),
    (C4_compliance_spec ⟨999, 4⟩ ExchangeBehavior.emptyRead).2.1
      (by norm_num [PyFloat.toRat])⟩

/-- Claim C5, counterexample: quench-status decode of the single-field
response `"0"` does not yield enabled = false — the decode branch
requires at least two comma fields, so for `"0"` nothing is decoded at
all: only the raw line is reported, and no `"Quench Detection: OFF"`
line is produced. -/
theorem C5_counterexample :
    quench_status_lines "0" = ["Quench detection: 0"] ∧
    "Quench Detection: OFF" ∉ quench_status_lines "0" := by
  decide

/-- Claim C5, amended: decode of `"1,0.0500"` reports quench detection
enabled with step-limit text `"0.0500"` (whose numeric value is 0.05);
a response with fewer than two comma fields — such as the single-field
`"0"` — is not decoded at all, only the raw text is reported; and the
raw response text is always echoed unchanged as the first output line,
so any parse failure still leaves the raw text. -/
theorem C5_amended_quench_decode :
    quench_status_lines "1,0.0500"
      = ["Quench detection: 1,0.0500", "Quench Detection: ON",
        "Step Limit: 0.0500 A/s"] ∧
    pyFloatOfString "0.0500" = some ⟨500, 4⟩ ∧
    (⟨500, 4⟩ : PyFloat).toRat = 0.05 ∧
    quench_status_lines "0" = ["Quench detection: 0"] ∧
    (∀ s, (quench_status_lines s).head? = some ("Quench detection: " ++ s)) ∧
    (∀ s, (pySplitComma s).length < 2 →
      quench_status_lines s = ["Quench detection: " ++ s]) := by
  refine ⟨by decide, by decide, by norm_num [PyFloat.toRat], by decide,
    fun s => rfl, ?_⟩
  intro s h
  have h' : ¬ (pySplitComma s).length ≥ 2 := by omega
  by_cases hs : s ≠ "" ∧ s ≠ "NO_RESPONSE"
  · simp [quench_status_lines, hs, h']
  · simp [quench_status_lines, hs]

/-- Claim C5 witness: the single-field response `"0"` has one comma field
and is left undecoded, with only the raw text reported. -/
theorem C5_amended_quench_decode_witness :
    quench_status_lines "0" = ["Quench detection: 0"] :=
  C5_amended_quench_decode.2.2.2.2.2 "0" (by decide)

/-- Claim C6: error-status decode of `"5,0,0"` reports exactly the
hardware conditions Output Over Current (bit 4) and Temperature Fault
(bit 1) — bits of 5 — and reports "None" for the operational and PSH
fields; a zero value in any field reports "None" for it; and an
unparsable payload (wrong field count, or non-numeric fields) falls back
to the raw text instead of raising. -/
theorem C6_error_status_decode :
    (get_error_status (ExchangeBehavior.ok "5,0,0")).2
      = "Error Status Register:\n  Hardware Errors: 5\n    - Output Over Current\n    - Temperature Fault\n  Operational Errors: None\n  PSH Errors: None" ∧
    hardware_lines 0 = ["  Hardware Errors: None"] ∧
    operational_lines 0 = ["  Operational Errors: None"] ∧
    psh_lines 0 = ["  PSH Errors: None"] ∧
    parse_error_response "garbage" = "Raw error status: garbage" ∧
    parse_error_response "1,2" = "Raw error status: 1,2" ∧
    parse_error_response "a,b,c" = "Raw error status: a,b,c" ∧
    (get_error_status (ExchangeBehavior.ok "garbage")).2
      = "Raw error status: garbage" := by
  decide

/-- Claim C7: encoding `set_current` with argument 12.5 produces exactly
the bytes `"SETI 12.5\r\n"` on the wire (whenever the transport accepts
the write), and every line any operation writes to the device — queries,
validated and unvalidated setters, and the ramp commands — is terminated
with CR+LF. -/
theorem C7_crlf_framing :
    (set_current ⟨125, 1⟩ ExchangeBehavior.emptyRead).writes = ["SETI 12.5\r\n"] ∧
    (∀ b, b ≠ ExchangeBehavior.raiseBeforeWrite →
      (set_current ⟨125, 1⟩ b).writes = ["SETI 12.5\r\n"]) ∧
    (∀ command b w, w ∈ (send_command command b).1 → ∃ s, w = s ++ "\r\n") ∧
    (∀ b w, w ∈ (get_field b).1 → ∃ s, w = s ++ "\r\n") ∧
    (∀ b w, w ∈ (get_current b).1 → ∃ s, w = s ++ "\r\n") ∧
    (∀ b w, w ∈ (get_voltage b).1 → ∃ s, w = s ++ "\r\n") ∧
    (∀ b w, w ∈ (get_ramp_rate b).1 → ∃ s, w = s ++ "\r\n") ∧
    (∀ b w, w ∈ (get_limits b).1 → ∃ s, w = s ++ "\r\n") ∧
    (∀ b w, w ∈ (get_compliance_voltage b).1 → ∃ s, w = s ++ "\r\n") ∧
    (∀ b w, w ∈ (get_identification b).1 → ∃ s, w = s ++ "\r\n") ∧
    (∀ b w, w ∈ (get_baud_rate b).1 → ∃ s, w = s ++ "\r\n") ∧
    (∀ b w, w ∈ (get_quench_detect b).1 → ∃ s, w = s ++ "\r\n") ∧
    (∀ b w, w ∈ (get_error_status b).1 → ∃ s, w = s ++ "\r\n") ∧
    (∀ x b w, w ∈ (set_current x b).writes → ∃ s, w = s ++ "\r\n") ∧
    (∀ x b w, w ∈ (set_ramp_rate x b).writes → ∃ s, w = s ++ "\r\n") ∧
    (∀ x b w, w ∈ (set_quench_step_limit x b).writes → ∃ s, w = s ++ "\r\n") ∧
    (∀ en b w, w ∈ (set_quench_detect en b).writes → ∃ s, w = s ++ "\r\n") ∧
    (∀ v b w, w ∈ (set_compliance_voltage v b).writes → ∃ s, w = s ++ "\r\n") ∧
    (∀ c v r b w, w ∈ (set_limits c v r b).writes → ∃ s, w = s ++ "\r\n") ∧
    (∀ b w, w ∈ (start_ramp b).writes → ∃ s, w = s ++ "\r\n") ∧
    (∀ b w, w ∈ (stop_ramp b).writes → ∃ s, w = s ++ "\r\n") := by
  refine ⟨by decide, ?_, sendWrites_crlf,
    fun b w hw => sendWrites_crlf "RDGF?" b w hw,
    fun b w hw => sendWrites_crlf "RDGI?" b w hw,
    fun b w hw => sendWrites_crlf "RDGV?" b w hw,
    fun b w hw => sendWrites_crlf "RATE?" b w hw,
    fun b w hw => sendWrites_crlf "LIMIT?" b w hw,
    fun b w hw => sendWrites_crlf "SETV?" b w hw,
    fun b w hw => sendWrites_crlf "*IDN?" b w hw,
    fun b w hw => sendWrites_crlf "BAUD?" b w hw,
    fun b w hw => sendWrites_crlf "QNCH?" b w hw,
    fun b w hw => sendWrites_crlf "ERSTR?" b w hw,
    fun x b w hw => sendWrites_crlf ("SETI " ++ fmtPyFloat x) b w hw,
    fun x b w hw => sendWrites_crlf ("RATE " ++ fmtPyFloat x) b w hw,
    fun x b w hw => sendWrites_crlf ("QNCH 1," ++ fmtPyFloat x) b w hw,
    fun en b w hw => sendWrites_crlf ("QNCH " ++ (if en then "1" else "0")) b w hw,
    ?_, ?_,
    fun b w hw => sendWrites_crlf "RAMP" b w hw,
    fun b w hw => sendWrites_crlf "STOP" b w hw⟩
  · intro b hb
    cases b <;> first | rfl | exact absurd rfl hb
  · intro v b w hw
    by_cases hv : compliance_ok v
    · rw [set_compliance_voltage, if_neg (not_not_intro hv)] at hw
      exact sendWrites_crlf _ b w hw
    · rw [set_compliance_voltage, if_pos hv] at hw
      exact absurd hw (List.not_mem_nil w)
  · intro c v r b w hw
    unfold set_limits at hw
    split_ifs at hw with h1 h2 h3 <;>
      first
        | exact absurd hw (List.not_mem_nil w)
        | exact sendWrites_crlf _ b w hw

/-- Claim C7 witness: the `RAMP` command's one write is CR+LF
terminated. -/
theorem C7_crlf_framing_witness : ∃ s, "RAMP\r\n" = s ++ "\r\n" :=
  C7_crlf_framing.2.2.1 "RAMP" ExchangeBehavior.emptyRead "RAMP\r\n" (by decide)

/-- Claim C8: in every logger iteration the four readings are decoded
independently — a decode failure of any one of them leaves that field
absent (`none`) in the record while the other readings are still
captured (changing one reading's exchange does not affect the others) —
and the completed record's formatted row is appended to the log file
within the same iteration, before the 60-second sleep that ends it, not
merely held in memory.  The concrete instance decodes rate, current and
voltage while the field reading fails. -/
theorem C8_logger_record (file : List String) (ts d t : String) (elapsed : PyFloat)
    (b1 b2 b3 b4 : ExchangeBehavior) :
    (get_ramp_data ts d t elapsed b1 b2 b3 b4).ramp_rate
      = decode_reading (get_ramp_rate b1).2 ∧
    (get_ramp_data ts d t elapsed b1 b2 b3 b4).currentA
      = decode_reading (get_current b2).2 ∧
    (get_ramp_data ts d t elapsed b1 b2 b3 b4).voltageV
      = decode_reading (get_voltage b3).2 ∧
    (get_ramp_data ts d t elapsed b1 b2 b3 b4).fieldT
      = decode_field_reading (get_field b4).2 ∧
    (∀ b4', (get_ramp_data ts d t elapsed b1 b2 b3 b4').ramp_rate
        = (get_ramp_data ts d t elapsed b1 b2 b3 b4).ramp_rate ∧
      (get_ramp_data ts d t elapsed b1 b2 b3 b4').currentA
        = (get_ramp_data ts d t elapsed b1 b2 b3 b4).currentA ∧
      (get_ramp_data ts d t elapsed b1 b2 b3 b4').voltageV
        = (get_ramp_data ts d t elapsed b1 b2 b3 b4).voltageV) ∧
    logger_iteration file ts d t elapsed b1 b2 b3 b4
      = file ++ [format_row_line (get_ramp_data ts d t elapsed b1 b2 b3 b4)] ∧
    get_ramp_data "T" "D" "H" ⟨0, 0⟩ (ExchangeBehavior.ok "0.0100")
        (ExchangeBehavior.ok "50.0") (ExchangeBehavior.ok "1.0")
        (ExchangeBehavior.ok "garbled")
      = ⟨"T", "D", "H", ⟨0, 0⟩, some ⟨100, 4⟩, some ⟨500, 1⟩, some ⟨10, 1⟩, none⟩ :=
  ⟨rfl, rfl, rfl, rfl, fun b4' => ⟨rfl, rfl, rfl⟩, rfl, by decide⟩

/-- Claim C9: for every starting day and every set of already-existing
files, the chosen log filename is the base name when it does not yet
exist, and otherwise the numbered name with the smallest positive counter
whose filename does not yet exist; consequently the chosen name never
collides with an existing file.  Concretely, with the base file present
the name `_1.csv` is chosen, and with `_1.csv` also present, `_2.csv`. -/
theorem C9_next_filename_spec (start_date : String) (existing : List String) :
    (base_filename start_date ∉ existing →
      get_next_csv_filename start_date existing = base_filename start_date) ∧
    (base_filename start_date ∈ existing →
      ∃ k, 1 ≤ k ∧
        get_next_csv_filename start_date existing = numbered_filename start_date k ∧
        numbered_filename start_date k ∉ existing ∧
        ∀ j, 1 ≤ j → j < k → numbered_filename start_date j ∈ existing) ∧
    get_next_csv_filename start_date existing ∉ existing ∧
    get_next_csv_filename "2024-01-01" ["ramps/2024-01-01_ramp_log.csv"]
      = "ramps/2024-01-01_ramp_log_1.csv" ∧
    get_next_csv_filename "2024-01-01"
        ["ramps/2024-01-01_ramp_log.csv", "ramps/2024-01-01_ramp_log_1.csv"]
      = "ramps/2024-01-01_ramp_log_2.csv" := by
  have hex : ∃ j, 1 ≤ j ∧ j < 1 + (existing.length + 1) ∧
      numbered_filename start_date j ∉ existing := by
    obtain ⟨j, h1, h2, h3⟩ := exists_free_counter start_date existing
    exact ⟨j, h1, by omega, h3⟩
  have hfind := findCounter_spec start_date existing (existing.length + 1) 1 hex
  refine ⟨?_, ?_, ?_, by decide, by decide⟩
  · intro hb
    simp [get_next_csv_filename, hb]
  · intro hb
    refine ⟨findCounter start_date existing (existing.length + 1) 1,
      hfind.2.1, ?_, hfind.1, hfind.2.2⟩
    simp [get_next_csv_filename, hb]
  · by_cases hb : base_filename start_date ∈ existing
    · simpa only [get_next_csv_filename, if_pos hb] using hfind.1
    · simpa only [get_next_csv_filename, if_neg hb] using hb

/-- Claim C9 witness: with the base file for 2024-01-01 present, the
logger picks the `_1.csv` name, which is fresh, and every smaller
positive counter's name already exists. -/
theorem C9_next_filename_spec_witness :
    ∃ k, 1 ≤ k ∧
      get_next_csv_filename "2024-01-01" ["ramps/2024-01-01_ramp_log.csv"]
        = numbered_filename "2024-01-01" k ∧
      numbered_filename "2024-01-01" k ∉ ["ramps/2024-01-01_ramp_log.csv"] ∧
      ∀ j, 1 ≤ j → j < k →
        numbered_filename "2024-01-01" j ∈ ["ramps/2024-01-01_ramp_log.csv"] :=
  (C9_next_filename_spec "2024-01-01" ["ramps/2024-01-01_ramp_log.csv"]).2.1
    (by decide)

/-- Claim C10 (implicit): `send_command` catches every exception raised
during the exchange and returns `None` instead — its result is `None`
exactly when the transport raised, so no transport exception escapes any
operation, including the raw-command escape hatch (which is
`send_command` itself) — and the mutating operations return the raw
response unmodified (possibly `None` or the empty string), never the
query operations' `"NO_RESPONSE"` marker. -/
theorem C10_exceptions_swallowed :
    (∀ command, (send_command command ExchangeBehavior.raiseBeforeWrite).2 = none ∧
      (send_command command ExchangeBehavior.raiseAfterWrite).2 = none) ∧
    (∀ command b, (send_command_attempt command b).2 = Except.error () →
      (send_command command b).2 = none) ∧
    (∀ command b, (send_command command b).2 = none ↔
      (b = ExchangeBehavior.raiseBeforeWrite ∨ b = ExchangeBehavior.raiseAfterWrite)) ∧
    (∀ x b, (set_current x b).result
      = Except.ok ((send_command ("SETI " ++ fmtPyFloat x) b).2)) ∧
    (∀ x b, (set_ramp_rate x b).result
      = Except.ok ((send_command ("RATE " ++ fmtPyFloat x) b).2)) ∧
    (∀ b, (start_ramp b).result = Except.ok ((send_command "RAMP" b).2)) ∧
    (∀ b, (stop_ramp b).result = Except.ok ((send_command "STOP" b).2)) ∧
    (set_current ⟨10, 1⟩ ExchangeBehavior.raiseAfterWrite).result = Except.ok none ∧
    (set_current ⟨10, 1⟩ ExchangeBehavior.emptyRead).result = Except.ok (some "") ∧
    (get_current ExchangeBehavior.raiseAfterWrite).2 = "NO_RESPONSE" := by
  refine ⟨fun command => ⟨rfl, rfl⟩, ?_, ?_, fun x b => rfl, fun x b => rfl,
    fun b => rfl, fun b => rfl, rfl, rfl, rfl⟩
  · intro command b h
    cases b <;> simp_all [send_command, send_command_attempt, Except.toOption]
  · intro command b
    cases b <;> simp [send_command, send_command_attempt, Except.toOption]

/-- Claim C10 witness: an exchange whose read raised is reported as the
`None` marker rather than an exception. -/
theorem C10_exceptions_swallowed_witness :
    (send_command "RAMP" ExchangeBehavior.raiseAfterWrite).2 = none :=
  C10_exceptions_swallowed.2.1 "RAMP" ExchangeBehavior.raiseAfterWrite rfl
